import Mathlib

/-!
Shallow embedding of the `new-cli` scaffolding tool (src/main.rs) and proofs
about its template resolution, input validation, target writing and opener
dispatch.

Paths are modelled as lists of components (Unix view): `rootDir`, `parentDir`,
or a `normal` named component, mirroring how `std::path` normalises paths when
comparing, joining and taking parents.  File-system reads performed by the
program are modelled by an oracle structure `Env` (canonicalize, exists,
is_file, read_dir, read_to_string, home_dir, current_dir, and success flags for
the fallible effects); writes performed by the program are recorded in an
explicit state `FsState`.
-/

/-- A single path component, as in `std::path::Component` (Unix). -/
inductive Component where
  | rootDir : Component
  | parentDir : Component
  | normal (s : String) : Component
deriving DecidableEq, Repr

/-- A path is its list of components. -/
abbrev FsPath := List Component

/-- Split a character list at every occurrence of `c` (like `str::split`). -/
def splitCharsOn (c : Char) : List Char → List (List Char)
  | [] => [[]]
  | x :: xs =>
    let r := splitCharsOn c xs
    if x = c then [] :: r
    else
      match r with
      | [] => [[x]]
      | g :: gs => (x :: g) :: gs

/-- Parse a relative path string into components the way `std::path` does on
Unix: split on `/`, drop empty segments and `.`, map `..` to `parentDir`. -/
def parseRel (s : String) : List Component :=
  (splitCharsOn '/' s.data).filterMap (fun t =>
    if t = [] then none
    else if t = ['.'] then none
    else if t = ['.', '.'] then some Component.parentDir
    else some (Component.normal (String.mk t)))

/-- `PathBuf::join` with a string argument: an absolute argument replaces the
path, otherwise the parsed components are appended. -/
def FsPath.joinStr (p : FsPath) (s : String) : FsPath :=
  match s.data with
  | '/' :: _ => Component.rootDir :: parseRel s
  | _ => p ++ parseRel s

/-- `FsPath::parent`: drop the last component; `None` for the root or the empty
path. -/
def FsPath.parent : FsPath → Option FsPath
  | [] => none
  | [Component.rootDir] => none
  | p => some p.dropLast

/-- `FsPath::starts_with`: component-wise prefix test (`base` is a prefix of
`p`). -/
def FsPath.startsWith : (p base : FsPath) → Bool
  | _, [] => true
  | [], _ :: _ => false
  | a :: p2, b :: base2 => decide (a = b) && FsPath.startsWith p2 base2

/-- `FsPath::file_name`: the final component when it is a normal component. -/
def FsPath.fileName (p : FsPath) : Option String :=
  match p.getLast? with
  | some (Component.normal s) => some s
  | _ => none

/-- Extension of a file name, following `std::path`: the part after the last
dot, unless there is no dot or the only dot is the leading character. -/
def extensionOfName (name : String) : Option String :=
  match splitCharsOn '.' name.data with
  | [] => none
  | [_] => none
  | [[], _] => none
  | parts => parts.getLast?.map String.mk

/-- `FsPath::extension`. -/
def FsPath.extension (p : FsPath) : Option String :=
  (FsPath.fileName p).bind extensionOfName

/-- `str::contains` for a literal pattern: some suffix of `s` begins with
`pat`. -/
def strContainsSub (s pat : String) : Bool :=
  (List.range (s.data.length + 1)).any (fun i => List.isPrefixOf pat.data (s.data.drop i))

/-! ## Input validation (`validate_cli_inputs`, src/main.rs lines 100-126) -/

/-- Error message for an invalid character in the filename. -/
def filenameCharMsg (filename cs : String) : String :=
  "错误：文件名 '" ++ filename ++ "' 包含无效字符 '" ++ cs ++ "'。"

/-- Error message for an invalid character in the extension. -/
def extensionCharMsg (extension cs : String) : String :=
  "错误：文件后缀 '" ++ extension ++ "' 包含无效字符 '" ++ cs ++ "'。"

/-- Error message for an empty filename. -/
def filenameEmptyMsg : String := "错误：文件名不能为空。"

/-- Error message for an empty extension. -/
def extensionEmptyMsg : String := "错误：文件后缀不能为空。"

/-- The invalid substrings rejected by validation, in check order. -/
def invalidCharSets : List String := ["/", "\\", ".."]

/-- The loop of `validate_cli_inputs`: for each invalid substring, check the
filename, then the extension. -/
def checkInvalidChars (filename extension : String) : List String → Except String Unit
  | [] => Except.ok ()
  | cs :: rest =>
    if strContainsSub filename cs = true then
      Except.error (filenameCharMsg filename cs)
    else if strContainsSub extension cs = true then
      Except.error (extensionCharMsg extension cs)
    else checkInvalidChars filename extension rest

/-- `validate_cli_inputs` from src/main.rs: substring checks in order, then
emptiness checks, first failure wins. -/
def validate_cli_inputs (filename extension : String) : Except String Unit :=
  match checkInvalidChars filename extension invalidCharSets with
  | Except.error e => Except.error e
  | Except.ok _ =>
    if filename = "" then Except.error filenameEmptyMsg
    else if extension = "" then Except.error extensionEmptyMsg
    else Except.ok ()

/-- An input is invalid when it is empty or contains one of the forbidden
substrings. -/
def invalidInput (s : String) : Prop :=
  s = "" ∨ strContainsSub s "/" = true ∨ strContainsSub s "\\" = true ∨
    strContainsSub s ".." = true

instance (s : String) : Decidable (invalidInput s) := by
  unfold invalidInput; infer_instance

/-- Classify an error message as a filename error (all filename messages begin
with the six characters 错误：文件名). -/
def isFilenameErrorMsg (m : String) : Bool :=
  match m.data with
  | '错' :: '误' :: '：' :: '文' :: '件' :: '名' :: _ => true
  | _ => false

/-! ## File-system oracle and write state -/

/-- Oracle for the file-system reads and fallible effects performed by one run
of the program.  `canonicalize` returns `none` when `fs::canonicalize` fails;
`readDir` returns the full paths of the directory's direct entries (`none` when
`read_dir` fails); `readToString` is `fs::read_to_string`; the `Ok` flags model
success of `create_dir_all`, the seed `fs::write`, the target `fs::write`, and
`Command::spawn`. -/
structure Env where
  canonicalize : FsPath → Option FsPath
  pathExists : FsPath → Bool
  isFile : FsPath → Bool
  readDir : FsPath → Option (List FsPath)
  readToString : FsPath → Option String
  home : Option FsPath
  currentDir : Option FsPath
  createDirOk : Bool
  seedWriteOk : Bool
  targetWriteOk : Bool
  spawnOk : Bool

/-- Ledger of directories and files created by the run. -/
structure FsState where
  dirs : List FsPath
  files : List (FsPath × String)
deriving DecidableEq, Repr

/-- Association-list lookup of a file's content. -/
def lookupFile : List (FsPath × String) → FsPath → Option String
  | [], _ => none
  | (q, c) :: rest, p => if q = p then some c else lookupFile rest p

/-- All nonempty prefixes of a path, the directories `create_dir_all`
guarantees to exist. -/
def pathPrefixes (p : FsPath) : List FsPath :=
  (List.range p.length).map (fun n => p.take (n + 1))

/-- `fs::create_dir_all`: record the directory and all its ancestors. -/
def FsState.createDirAll (st : FsState) (p : FsPath) : FsState :=
  ⟨pathPrefixes p ++ st.dirs, st.files⟩

/-- `fs::write`: create or overwrite the file at `p` with content `c`. -/
def FsState.writeFile (st : FsState) (p : FsPath) (c : String) : FsState :=
  ⟨st.dirs, (p, c) :: st.files.filter (fun qc => decide (qc.1 ≠ p))⟩

/-- Whether a path exists in the ledger. -/
def FsState.existsP (st : FsState) (p : FsPath) : Bool :=
  st.dirs.any (fun q => decide (q = p)) || st.files.any (fun qc => decide (qc.1 = p))

/-! ## Template store (`ensure_template_dir`, src/main.rs lines 20-39) -/

/-- `ensure_template_dir`.  The directory is `<home>/.new-cli/template`; the
existence test consults both the pre-existing file system (`env.pathExists`)
and this run's ledger.  `dc` is the embedded default template text
(`template/index.html` is compiled into the binary and is not part of src, so
its exact content is a parameter; no claim depends on it).  On error the
partial ledger is returned alongside the message. -/
def ensure_template_dir (env : Env) (dc : String) (st : FsState) :
    Except (String × FsState) (FsState × FsPath) :=
  match env.home with
  | none => Except.error ("无法获取主目录", st)
  | some home =>
    let template_dir := FsPath.joinStr (FsPath.joinStr home ".new-cli") "template"
    if (env.pathExists template_dir || FsState.existsP st template_dir) = true then
      Except.ok (st, template_dir)
    else if env.createDirOk = false then
      Except.error ("无法创建模板目录", st)
    else
      let st1 := FsState.createDirAll st template_dir
      if env.seedWriteOk = false then
        Except.error ("无法写入默认模板到用户目录", st1)
      else
        Except.ok (FsState.writeFile st1 (FsPath.joinStr template_dir "index.html") dc,
          template_dir)

/-! ## Template resolution (`find_template_file`, src/main.rs lines 55-97) -/

/-- The exact-match branch: if `template_dir/<filename>.<extension>` exists,
canonicalize it and keep it only when the canonical form stays inside the
canonical template directory. -/
def exact_candidate (env : Env) (template_dir canonical_template_dir : FsPath)
    (filename extension : String) : Option FsPath :=
  if env.pathExists (FsPath.joinStr template_dir (filename ++ "." ++ extension)) = true then
    match env.canonicalize (FsPath.joinStr template_dir (filename ++ "." ++ extension)) with
    | some canonical_specified_path =>
      if FsPath.startsWith canonical_specified_path canonical_template_dir = true then
        some (FsPath.joinStr template_dir (filename ++ "." ++ extension))
      else none
    | none => none
  else none

/-- The fallback loop over the directory entries: first regular file with the
requested extension whose canonical form stays inside the canonical template
directory; entries failing any test are skipped. -/
def scanEntries (env : Env) (canonical_template_dir : FsPath) (extension : String) :
    List FsPath → Option FsPath
  | [] => none
  | path :: rest =>
    if env.isFile path = true then
      match FsPath.extension path with
      | some ext =>
        if ext = extension then
          match env.canonicalize path with
          | some canonical_entry_path =>
            if FsPath.startsWith canonical_entry_path canonical_template_dir = true then
              some path
            else scanEntries env canonical_template_dir extension rest
          | none => scanEntries env canonical_template_dir extension rest
        else scanEntries env canonical_template_dir extension rest
      | none => scanEntries env canonical_template_dir extension rest
    else scanEntries env canonical_template_dir extension rest

/-- The acceptance test of the fallback loop, as a predicate on one entry:
regular file, requested extension, canonicalizes inside the canonical template
directory. -/
def goodEntry (env : Env) (canonical_template_dir : FsPath) (extension : String)
    (p : FsPath) : Bool :=
  if env.isFile p = true then
    match FsPath.extension p with
    | some ext =>
      if ext = extension then
        match env.canonicalize p with
        | some canonical_entry_path =>
          FsPath.startsWith canonical_entry_path canonical_template_dir
        | none => false
      else false
    | none => false
  else false

/-- `find_template_file`: canonicalize the template directory (`none` on
failure), try the exact candidate, then scan the directory entries. -/
def find_template_file (env : Env) (template_dir : FsPath) (filename extension : String) :
    Option FsPath :=
  match env.canonicalize template_dir with
  | none => none
  | some canonical_template_dir =>
    match exact_candidate env template_dir canonical_template_dir filename extension with
    | some p => some p
    | none =>
      match env.readDir template_dir with
      | some entries => scanEntries env canonical_template_dir extension entries
      | none => none

/-- Content used by `main`: read the resolved template, or the empty string
when no template matched (`none` means `read_to_string` failed, which `main`
propagates as a fatal error). -/
def resolve_content (env : Env) (template_dir : FsPath) (filename extension : String) :
    Option String :=
  match find_template_file env template_dir filename extension with
  | some p => env.readToString p
  | none => some ""

/-! ## Main pipeline (src/main.rs lines 128-192) -/

/-- Compile-time platform choice. -/
inductive OS where
  | windows : OS
  | macos : OS
  | linux : OS
deriving DecidableEq, Repr

/-- `get_default_editor`. -/
def get_default_editor : OS → String
  | OS.windows => "notepad3"
  | OS.macos => "open"
  | OS.linux => "xdg-open"

/-- Process termination: an explicit exit code, or an error propagated out of
`main` (printed by the runtime, nonzero status). -/
inductive ExitStatus where
  | code (n : Nat) : ExitStatus
  | fatal (m : String) : ExitStatus
deriving DecidableEq, Repr

/-- The messages `main` prints. -/
inductive Msg where
  | validationError (m : String) : Msg
  | noTemplateFound (filename extension : String) : Msg
  | targetNotInCwd (dest : FsPath) : Msg
  | createdFile (name : String) : Msg
  | openedWith (editor : String) : Msg
  | openFailed : Msg
deriving DecidableEq, Repr

/-- Observable outcome of a run: termination status, the write to the target
file if it happened, the final ledger of writes, and the printed messages. -/
structure MainResult where
  status : ExitStatus
  targetWrite : Option (FsPath × String)
  st : FsState
  msgs : List Msg
deriving DecidableEq, Repr

/-- The tail of `main` after the template content is known: compute the
destination, check its direct parent is the canonical current directory
(`exit(1)` otherwise), write the file, then spawn the opener, reporting but
tolerating a spawn failure. -/
def scaffold_rest (env : Env) (os : OS) (st1 : FsState)
    (filename extension content : String) (msgs0 : List Msg) : MainResult :=
  let target_filename := filename ++ "." ++ extension
  match env.currentDir with
  | none => ⟨ExitStatus.fatal "无法获取当前目录", none, st1, msgs0⟩
  | some current_dir =>
    match env.canonicalize current_dir with
    | none => ⟨ExitStatus.fatal "无法规范化当前目录路径", none, st1, msgs0⟩
    | some canonical_current_dir =>
      let absolute_target_path := FsPath.joinStr canonical_current_dir target_filename
      if FsPath.parent absolute_target_path ≠ some canonical_current_dir then
        ⟨ExitStatus.code 1, none, st1, msgs0 ++ [Msg.targetNotInCwd absolute_target_path]⟩
      else if env.targetWriteOk = false then
        ⟨ExitStatus.fatal ("无法创建文件 " ++ target_filename), none, st1, msgs0⟩
      else
        let st2 := FsState.writeFile st1 absolute_target_path content
        let msgs1 := msgs0 ++ [Msg.createdFile target_filename]
        let editor := get_default_editor os
        if env.spawnOk = true then
          ⟨ExitStatus.code 0, some (absolute_target_path, content), st2,
            msgs1 ++ [Msg.openedWith editor]⟩
        else
          ⟨ExitStatus.code 0, some (absolute_target_path, content), st2,
            msgs1 ++ [Msg.openFailed]⟩

/-- `main`: validate, ensure the template store, resolve the template content,
then run the target-writing and opener tail. -/
def main_model (env : Env) (dc : String) (os : OS) (st0 : FsState)
    (filename extension : String) : MainResult :=
  match validate_cli_inputs filename extension with
  | Except.error e => ⟨ExitStatus.code 1, none, st0, [Msg.validationError e]⟩
  | Except.ok _ =>
    match ensure_template_dir env dc st0 with
    | Except.error (m, st1) => ⟨ExitStatus.fatal m, none, st1, []⟩
    | Except.ok (st1, template_dir) =>
      match find_template_file env template_dir filename extension with
      | some template_path =>
        match env.readToString template_path with
        | none => ⟨ExitStatus.fatal "无法读取模板文件", none, st1, []⟩
        | some content => scaffold_rest env os st1 filename extension content []
      | none =>
        scaffold_rest env os st1 filename extension ""
          [Msg.noTemplateFound filename extension]

/-! ## Concrete fixtures used to instantiate the theorems -/

/-- A concrete home directory. -/
def wHome : FsPath := [Component.rootDir, Component.normal "home", Component.normal "u"]

/-- The template directory under `wHome`. -/
def wTd : FsPath := wHome ++ [Component.normal ".new-cli", Component.normal "template"]

/-- The exact candidate for the request `(index, html)`. -/
def wSpec : FsPath := wTd ++ [Component.normal "index.html"]

/-- A concrete current working directory. -/
def wCwd : FsPath := [Component.rootDir, Component.normal "work"]

/-- Another `.html` template inside the directory. -/
def wOther : FsPath := wTd ++ [Component.normal "other.html"]

/-- A subdirectory entry of the template directory. -/
def wSub : FsPath := wTd ++ [Component.normal "sub"]

/-- An entry with a different extension. -/
def wReadme : FsPath := wTd ++ [Component.normal "readme.txt"]

/-- A second `.html` entry, after `wOther` in the scan order. -/
def wZzz : FsPath := wTd ++ [Component.normal "zzz.html"]

/-- Directory entries used by the scan fixtures. -/
def wEntries : List FsPath := [wSub, wReadme, wOther, wZzz]

/-- Oracle in which the exact candidate exists as a regular file and every
effect succeeds. -/
def envExact : Env :=
  { canonicalize := fun p => some p
    pathExists := fun p => decide (p = wSpec)
    isFile := fun p => decide (p = wSpec)
    readDir := fun _ => some []
    readToString := fun p => if p = wSpec then some "<html>" else none
    home := some wHome
    currentDir := some wCwd
    createDirOk := true
    seedWriteOk := true
    targetWriteOk := true
    spawnOk := true }

/-- Oracle in which the exact candidate is absent and the directory scan must
skip a subdirectory and a wrong-extension entry before finding `wOther`. -/
def envScan : Env :=
  { canonicalize := fun p => some p
    pathExists := fun _ => false
    isFile := fun p => decide (p ≠ wSub)
    readDir := fun p => if p = wTd then some wEntries else some []
    readToString := fun p => if p = wOther then some "<other>" else none
    home := some wHome
    currentDir := some wCwd
    createDirOk := true
    seedWriteOk := true
    targetWriteOk := true
    spawnOk := true }

/-- Oracle with an empty file system: nothing exists, directory listings are
empty, all effects succeed. -/
def envNone : Env :=
  { canonicalize := fun p => some p
    pathExists := fun _ => false
    isFile := fun _ => false
    readDir := fun _ => some []
    readToString := fun _ => none
    home := some wHome
    currentDir := some wCwd
    createDirOk := true
    seedWriteOk := true
    targetWriteOk := true
    spawnOk := true }

/-- Oracle in which canonicalization always fails. -/
def envNoCanon : Env :=
  { envExact with canonicalize := fun _ => none }

/-- Oracle in which everything succeeds except spawning the opener. -/
def envSpawnFail : Env :=
  { envExact with spawnOk := false }

/-- Oracle in which the exact candidate exists but is not a regular file. -/
def envExactNotFile : Env :=
  { envExact with isFile := fun _ => false }

/-- Oracle in which the exact candidate exists but cannot be canonicalized;
the scan then finds `wOther`. -/
def envExactNoCanon : Env :=
  { envScan with
      pathExists := fun p => decide (p = wSpec)
      canonicalize := fun p => if p = wSpec then none else some p }

/-- The ledger after a first run of `ensure_template_dir` over `envNone`
starting from the empty ledger. -/
def wStSeed : FsState :=
  FsState.writeFile (FsState.createDirAll ⟨[], []⟩ wTd)
    (FsPath.joinStr wTd "index.html") "D"

/-! ## Lemmas about validation -/

theorem strData_append (s t : String) : (s ++ t).data = s.data ++ t.data := by
  cases s with
  | mk a => cases t with
    | mk b => rfl

theorem isFilenameErrorMsg_filenameCharMsg (f cs : String) :
    isFilenameErrorMsg (filenameCharMsg f cs) = true := by
  cases f with
  | mk fd => cases cs with
    | mk cd => rfl

theorem isFilenameErrorMsg_extensionCharMsg (e cs : String) :
    isFilenameErrorMsg (extensionCharMsg e cs) = false := by
  cases e with
  | mk ed => cases cs with
    | mk cd => rfl

theorem isFilenameErrorMsg_filenameEmptyMsg : isFilenameErrorMsg filenameEmptyMsg = true := rfl

theorem isFilenameErrorMsg_extensionEmptyMsg : isFilenameErrorMsg extensionEmptyMsg = false := rfl

/-- The validation checks unrolled into their exact order: for each forbidden
substring in the order of `invalidCharSets`, the filename then the extension,
then the two emptiness checks. -/
theorem validate_cli_inputs_chain (f e : String) :
    validate_cli_inputs f e =
      (if strContainsSub f "/" = true then Except.error (filenameCharMsg f "/")
       else if strContainsSub e "/" = true then Except.error (extensionCharMsg e "/")
       else if strContainsSub f "\\" = true then Except.error (filenameCharMsg f "\\")
       else if strContainsSub e "\\" = true then Except.error (extensionCharMsg e "\\")
       else if strContainsSub f ".." = true then Except.error (filenameCharMsg f "..")
       else if strContainsSub e ".." = true then Except.error (extensionCharMsg e "..")
       else if f = "" then Except.error filenameEmptyMsg
       else if e = "" then Except.error extensionEmptyMsg
       else Except.ok ()) := by
  simp only [validate_cli_inputs, invalidCharSets, checkInvalidChars]
  split_ifs <;> rfl

/-- C6: `validate_cli_inputs` fails exactly when the filename or the extension
contains one of the substrings `/`, `\`, `..` or is empty; in particular
`validate("index","html")` and `validate("my_file-123","txt")` succeed.  The
embedding is a pure function, matching the no-side-effects contract. -/
theorem validate_cli_inputs_ok_iff :
    (∀ filename extension,
       validate_cli_inputs filename extension = Except.ok () ↔
         ¬ invalidInput filename ∧ ¬ invalidInput extension) ∧
    validate_cli_inputs "index" "html" = Except.ok () ∧
    validate_cli_inputs "my_file-123" "txt" = Except.ok () := by
  refine ⟨fun f e => ?_, rfl, rfl⟩
  rw [validate_cli_inputs_chain]
  unfold invalidInput
  split_ifs with h1 h2 h3 h4 h5 h6 h7 h8 <;> simp_all

/-- C2 counterexample: with filename `a..b` and extension `e/f` both invalid,
the reported error is the extension's, not the filename's: the loop checks the
substring `/` for both fields before ever checking `..`. -/
theorem validate_both_invalid_counterexample :
    invalidInput "a..b" ∧ invalidInput "e/f" ∧
    validate_cli_inputs "a..b" "e/f" = Except.error (extensionCharMsg "e/f" "/") ∧
    isFilenameErrorMsg (extensionCharMsg "e/f" "/") = false :=
  ⟨by decide, by decide, rfl, rfl⟩

/-- C2 amended: when both inputs are invalid an error is always reported, and
it is the filename's error exactly when the filename's first-matching rule
comes no later in the check order (`/`, then `\`, then `..`, then emptiness,
filename before extension at each rule) than every rule matched by the
extension; otherwise the extension's error is reported. -/
theorem validate_both_invalid_precedence (f e : String)
    (hf : invalidInput f) (he : invalidInput e) :
    ∃ m, validate_cli_inputs f e = Except.error m ∧
      (isFilenameErrorMsg m = true ↔
        (strContainsSub f "/" = true ∨
         (strContainsSub f "\\" = true ∧ strContainsSub e "/" = false) ∨
         (strContainsSub f ".." = true ∧ strContainsSub e "/" = false ∧
            strContainsSub e "\\" = false) ∨
         (strContainsSub f "/" = false ∧ strContainsSub f "\\" = false ∧
            strContainsSub f ".." = false ∧ strContainsSub e "/" = false ∧
            strContainsSub e "\\" = false ∧ strContainsSub e ".." = false))) := by
  rw [validate_cli_inputs_chain]
  split_ifs with h1 h2 h3 h4 h5 h6 h7 h8
  · exact ⟨_, rfl, by simp_all [isFilenameErrorMsg_filenameCharMsg]⟩
  · exact ⟨_, rfl, by simp_all [isFilenameErrorMsg_extensionCharMsg]⟩
  · exact ⟨_, rfl, by simp_all [isFilenameErrorMsg_filenameCharMsg]⟩
  · exact ⟨_, rfl, by simp_all [isFilenameErrorMsg_extensionCharMsg]⟩
  · exact ⟨_, rfl, by simp_all [isFilenameErrorMsg_filenameCharMsg]⟩
  · exact ⟨_, rfl, by simp_all [isFilenameErrorMsg_extensionCharMsg]⟩
  · exact ⟨_, rfl, by simp_all [isFilenameErrorMsg_filenameEmptyMsg]⟩
  · exact absurd hf (by simp_all [invalidInput])
  · exact absurd hf (by simp_all [invalidInput])

/-- Witness for the amended C2 at the concrete input of the repository's own
test: both fields contain `/`, and the filename's error is reported. -/
theorem validate_both_invalid_precedence_witness :
    invalidInput "file/" ∧ invalidInput "ext/" ∧
    (∃ m, validate_cli_inputs "file/" "ext/" = Except.error m ∧
      (isFilenameErrorMsg m = true ↔
        (strContainsSub "file/" "/" = true ∨
         (strContainsSub "file/" "\\" = true ∧ strContainsSub "ext/" "/" = false) ∨
         (strContainsSub "file/" ".." = true ∧ strContainsSub "ext/" "/" = false ∧
            strContainsSub "ext/" "\\" = false) ∨
         (strContainsSub "file/" "/" = false ∧ strContainsSub "file/" "\\" = false ∧
            strContainsSub "file/" ".." = false ∧ strContainsSub "ext/" "/" = false ∧
            strContainsSub "ext/" "\\" = false ∧ strContainsSub "ext/" ".." = false)))) :=
  ⟨by decide, by decide,
    validate_both_invalid_precedence "file/" "ext/" (by decide) (by decide)⟩

/-! ## Lemmas about template resolution -/

theorem scanEntries_cons (env : Env) (ctd : FsPath) (ext : String) (p : FsPath)
    (rest : List FsPath) :
    scanEntries env ctd ext (p :: rest) =
      if goodEntry env ctd ext p = true then some p else scanEntries env ctd ext rest := by
  by_cases hf : env.isFile p = true
  · cases hx : FsPath.extension p with
    | none => simp [scanEntries, goodEntry, hf, hx]
    | some e2 =>
      by_cases he2 : e2 = ext
      · subst he2
        cases hc : env.canonicalize p with
        | none => simp [scanEntries, goodEntry, hf, hx, hc]
        | some cp => simp [scanEntries, goodEntry, hf, hx, hc]
      · simp [scanEntries, goodEntry, hf, hx, he2]
  · simp [scanEntries, goodEntry, hf]

theorem scanEntries_eq_find (env : Env) (ctd : FsPath) (ext : String) :
    ∀ l : List FsPath, scanEntries env ctd ext l = l.find? (goodEntry env ctd ext)
  | [] => rfl
  | p :: rest => by
    rw [scanEntries_cons]
    by_cases hg : goodEntry env ctd ext p = true
    · rw [if_pos hg, List.find?_cons_of_pos _ hg]
    · rw [if_neg hg, List.find?_cons_of_neg _ (by simpa using hg),
        scanEntries_eq_find env ctd ext rest]

theorem scanEntries_good {env : Env} {ctd : FsPath} {ext : String} {l : List FsPath}
    {p : FsPath} (h : scanEntries env ctd ext l = some p) :
    goodEntry env ctd ext p = true := by
  rw [scanEntries_eq_find] at h
  exact List.find?_some h

theorem goodEntry_parts {env : Env} {ctd : FsPath} {ext : String} {p : FsPath}
    (h : goodEntry env ctd ext p = true) :
    env.isFile p = true ∧ FsPath.extension p = some ext ∧
      ∃ cp, env.canonicalize p = some cp ∧ FsPath.startsWith cp ctd = true := by
  by_cases hf : env.isFile p = true
  · cases hx : FsPath.extension p with
    | none => simp [goodEntry, hf, hx] at h
    | some e2 =>
      by_cases he2 : e2 = ext
      · subst he2
        cases hc : env.canonicalize p with
        | none => simp [goodEntry, hf, hx, hc] at h
        | some cp =>
          simp only [goodEntry, hf, hx, hc, if_true, if_pos rfl] at h
          exact ⟨hf, rfl, cp, rfl, h⟩
      · simp [goodEntry, hf, hx, he2] at h
  · simp [goodEntry, hf] at h

theorem exact_candidate_some {env : Env} {template_dir ctd q : FsPath}
    {filename extension : String}
    (h : exact_candidate env template_dir ctd filename extension = some q) :
    q = FsPath.joinStr template_dir (filename ++ "." ++ extension) ∧
      env.pathExists q = true ∧
      ∃ cp, env.canonicalize q = some cp ∧ FsPath.startsWith cp ctd = true := by
  by_cases he : env.pathExists (FsPath.joinStr template_dir (filename ++ "." ++ extension)) = true
  · cases hc : env.canonicalize (FsPath.joinStr template_dir (filename ++ "." ++ extension)) with
    | none => simp [exact_candidate, he, hc] at h
    | some cp =>
      by_cases hs : FsPath.startsWith cp ctd = true
      · simp only [exact_candidate, he, hc, hs, if_true, if_pos rfl] at h
        injection h with hq
        subst hq
        exact ⟨rfl, he, cp, hc, hs⟩
      · simp [exact_candidate, he, hc, hs] at h
  · simp [exact_candidate, he] at h

/-- Core of the exact-match branch: an existing, canonicalizable, contained
exact candidate is returned. -/
theorem find_exact_aux (env : Env) (template_dir : FsPath) (filename extension : String)
    (ctd cp : FsPath)
    (h1 : env.canonicalize template_dir = some ctd)
    (h2 : env.pathExists (FsPath.joinStr template_dir (filename ++ "." ++ extension)) = true)
    (h3 : env.canonicalize (FsPath.joinStr template_dir (filename ++ "." ++ extension)) = some cp)
    (h4 : FsPath.startsWith cp ctd = true) :
    find_template_file env template_dir filename extension =
      some (FsPath.joinStr template_dir (filename ++ "." ++ extension)) := by
  unfold find_template_file exact_candidate
  rw [h1]
  simp [h2, h3, h4]

/-- Core of the fallback: when the exact branch yields nothing, resolution is
the directory scan. -/
theorem find_fallback_aux (env : Env) (template_dir : FsPath) (filename extension : String)
    (ctd : FsPath)
    (h1 : env.canonicalize template_dir = some ctd)
    (hex : exact_candidate env template_dir ctd filename extension = none) :
    find_template_file env template_dir filename extension =
      (env.readDir template_dir).bind
        (fun entries => List.find? (goodEntry env ctd extension) entries) := by
  unfold find_template_file
  simp only [h1, hex]
  cases hr : env.readDir template_dir with
  | none => rfl
  | some entries => simp [scanEntries_eq_find]

/-- C1: any path returned by template resolution canonicalizes, and its
canonical form is contained in the canonical template directory; in
particular a symlink inside the template directory that resolves outside it
is never returned, whatever its name. -/
theorem find_template_file_contained (env : Env) (template_dir : FsPath)
    (filename extension : String) (p : FsPath)
    (h : find_template_file env template_dir filename extension = some p) :
    ∃ ctd cp, env.canonicalize template_dir = some ctd ∧
      env.canonicalize p = some cp ∧ FsPath.startsWith cp ctd = true := by
  unfold find_template_file at h
  cases hc : env.canonicalize template_dir with
  | none => rw [hc] at h; exact absurd h (by simp)
  | some ctd =>
    rw [hc] at h
    simp only [] at h
    cases hx : exact_candidate env template_dir ctd filename extension with
    | some q =>
      rw [hx] at h
      simp only [Option.some.injEq] at h
      subst h
      obtain ⟨-, -, cp, hcq, hs⟩ := exact_candidate_some hx
      exact ⟨ctd, cp, rfl, hcq, hs⟩
    | none =>
      rw [hx] at h
      cases hr : env.readDir template_dir with
      | none => rw [hr] at h; exact absurd h (by simp)
      | some entries =>
        rw [hr] at h
        obtain ⟨-, -, cp, hcp, hs⟩ := goodEntry_parts (scanEntries_good h)
        exact ⟨ctd, cp, rfl, hcp, hs⟩

/-- Witness for C1: in the concrete oracle the resolver returns the exact
candidate, and the containment conclusion holds for it. -/
theorem find_template_file_contained_witness :
    find_template_file envExact wTd "index" "html" = some wSpec ∧
    (∃ ctd cp, envExact.canonicalize wTd = some ctd ∧
      envExact.canonicalize wSpec = some cp ∧ FsPath.startsWith cp ctd = true) :=
  ⟨by decide, find_template_file_contained envExact wTd "index" "html" wSpec (by decide)⟩

/-- C4: if the exact candidate `template_dir/<filename>.<extension>` exists
and its canonical form is contained in the canonical template directory, the
resolver returns exactly that candidate. -/
theorem find_template_file_exact (env : Env) (template_dir : FsPath)
    (filename extension : String) (ctd cp spath : FsPath)
    (hspath : spath = FsPath.joinStr template_dir (filename ++ "." ++ extension))
    (h1 : env.canonicalize template_dir = some ctd)
    (h2 : env.pathExists spath = true)
    (h3 : env.canonicalize spath = some cp)
    (h4 : FsPath.startsWith cp ctd = true) :
    find_template_file env template_dir filename extension = some spath := by
  subst hspath
  exact find_exact_aux env template_dir filename extension ctd cp h1 h2 h3 h4

/-- Witness for C4 at the concrete oracle. -/
theorem find_template_file_exact_witness :
    wSpec = FsPath.joinStr wTd ("index" ++ "." ++ "html") ∧
    envExact.canonicalize wTd = some wTd ∧
    envExact.pathExists wSpec = true ∧
    envExact.canonicalize wSpec = some wSpec ∧
    FsPath.startsWith wSpec wTd = true ∧
    find_template_file envExact wTd "index" "html" = some wSpec :=
  ⟨by decide, rfl, by decide, rfl, by decide,
    find_template_file_exact envExact wTd "index" "html" wTd wSpec wSpec (by decide) rfl
      (by decide) rfl (by decide)⟩

/-- C5: when the exact candidate is absent or fails containment, resolution
is exactly the non-recursive scan of the directory's entries, returning the
first regular file with the requested extension whose canonical form stays in
the canonical template directory; when the scan yields nothing (or the
directory cannot be read) the result is `none`, which `main` treats as the
empty-content outcome, not an error. -/
theorem find_template_file_scan (env : Env) (template_dir : FsPath)
    (filename extension : String) (ctd : FsPath)
    (h1 : env.canonicalize template_dir = some ctd)
    (h2 : env.pathExists (FsPath.joinStr template_dir (filename ++ "." ++ extension)) = false ∨
          ∀ cp, env.canonicalize (FsPath.joinStr template_dir (filename ++ "." ++ extension))
              = some cp → FsPath.startsWith cp ctd = false) :
    find_template_file env template_dir filename extension =
      (env.readDir template_dir).bind
        (fun entries => List.find? (goodEntry env ctd extension) entries) ∧
    ((env.readDir template_dir).bind
        (fun entries => List.find? (goodEntry env ctd extension) entries) = none →
      resolve_content env template_dir filename extension = some "") := by
  have hex : exact_candidate env template_dir ctd filename extension = none := by
    unfold exact_candidate
    rcases h2 with h2 | h2
    · simp [h2]
    · by_cases he : env.pathExists (FsPath.joinStr template_dir
          (filename ++ "." ++ extension)) = true
      · cases hcs : env.canonicalize (FsPath.joinStr template_dir
            (filename ++ "." ++ extension)) with
        | none => simp [he, hcs]
        | some cp => simp [he, hcs, h2 cp hcs]
      · simp [he]
  have hmain := find_fallback_aux env template_dir filename extension ctd h1 hex
  refine ⟨hmain, fun hn => ?_⟩
  unfold resolve_content
  rw [hmain, hn]

/-- Witness for C5: the exact candidate is absent and the scan skips a
subdirectory and a wrong-extension entry before returning `wOther`. -/
theorem find_template_file_scan_witness :
    envScan.canonicalize wTd = some wTd ∧
    envScan.pathExists (FsPath.joinStr wTd ("index" ++ "." ++ "html")) = false ∧
    find_template_file envScan wTd "index" "html" =
      (envScan.readDir wTd).bind
        (fun entries => List.find? (goodEntry envScan wTd "html") entries) ∧
    find_template_file envScan wTd "index" "html" = some wOther :=
  ⟨rfl, rfl,
    (find_template_file_scan envScan wTd "index" "html" wTd rfl (Or.inl rfl)).1,
    by decide⟩

/-- C9: if canonicalization of the template directory itself fails, the
resolver returns `none` whatever the rest of the file system looks like. -/
theorem find_template_file_dir_canon_fail (env : Env) (template_dir : FsPath)
    (filename extension : String)
    (h : env.canonicalize template_dir = none) :
    find_template_file env template_dir filename extension = none := by
  unfold find_template_file
  rw [h]

/-- Witness for C9. -/
theorem find_template_file_dir_canon_fail_witness :
    envNoCanon.canonicalize wTd = none ∧
    find_template_file envNoCanon wTd "index" "html" = none :=
  ⟨rfl, find_template_file_dir_canon_fail envNoCanon wTd "index" "html" rfl⟩

/-- C10: the exact-match branch never tests `is_file`, so an existing
non-regular entry (for example a directory) that passes containment is
returned; the fallback scan, by contrast, only ever returns entries for which
`is_file` holds; and when the existing exact candidate fails to canonicalize,
resolution falls back to the scan instead of returning `none`. -/
theorem find_template_file_exact_quirks :
    (∀ (env : Env) (template_dir : FsPath) (filename extension : String) (ctd cp spath : FsPath),
       spath = FsPath.joinStr template_dir (filename ++ "." ++ extension) →
       env.canonicalize template_dir = some ctd →
       env.pathExists spath = true →
       env.isFile spath = false →
       env.canonicalize spath = some cp →
       FsPath.startsWith cp ctd = true →
       find_template_file env template_dir filename extension = some spath) ∧
    (∀ (env : Env) (ctd : FsPath) (extension : String) (entries : List FsPath) (p : FsPath),
       scanEntries env ctd extension entries = some p → env.isFile p = true) ∧
    (∀ (env : Env) (template_dir : FsPath) (filename extension : String) (ctd : FsPath),
       env.canonicalize template_dir = some ctd →
       env.pathExists (FsPath.joinStr template_dir (filename ++ "." ++ extension)) = true →
       env.canonicalize (FsPath.joinStr template_dir (filename ++ "." ++ extension)) = none →
       find_template_file env template_dir filename extension =
         (env.readDir template_dir).bind
           (fun entries => List.find? (goodEntry env ctd extension) entries)) := by
  refine ⟨?_, ?_, ?_⟩
  · intro env template_dir filename extension ctd cp spath hspath h1 h2 _hnf h3 h4
    subst hspath
    exact find_exact_aux env template_dir filename extension ctd cp h1 h2 h3 h4
  · intro env ctd extension entries p h
    exact (goodEntry_parts (scanEntries_good h)).1
  · intro env template_dir filename extension ctd h1 h2 h3
    have hex : exact_candidate env template_dir ctd filename extension = none := by
      unfold exact_candidate
      simp [h2, h3]
    exact find_fallback_aux env template_dir filename extension ctd h1 hex

/-- Witness for C10: a non-regular exact match is returned; the concrete scan
returns a regular file; an uncanonicalizable exact match falls back to the
scan. -/
theorem find_template_file_exact_quirks_witness :
    (envExactNotFile.isFile wSpec = false ∧
     find_template_file envExactNotFile wTd "index" "html" = some wSpec) ∧
    (scanEntries envScan wTd "html" wEntries = some wOther ∧
     envScan.isFile wOther = true) ∧
    (envExactNoCanon.pathExists wSpec = true ∧
     envExactNoCanon.canonicalize wSpec = none ∧
     find_template_file envExactNoCanon wTd "index" "html" =
       (envExactNoCanon.readDir wTd).bind
         (fun entries => List.find? (goodEntry envExactNoCanon wTd "html") entries)) :=
  ⟨⟨rfl,
    find_template_file_exact_quirks.1 envExactNotFile wTd "index" "html" wTd wSpec wSpec
      (by decide) rfl (by decide) rfl rfl (by decide)⟩,
   ⟨by decide,
    find_template_file_exact_quirks.2.1 envScan wTd "html" wEntries wOther (by decide)⟩,
   ⟨by decide, by decide,
    find_template_file_exact_quirks.2.2 envExactNoCanon wTd "index" "html" wTd rfl
      (by decide) (by decide)⟩⟩

/-! ## Lemmas about the template store -/

theorem mem_pathPrefixes_self {p : FsPath} (h : p ≠ []) : p ∈ pathPrefixes p := by
  unfold pathPrefixes
  refine List.mem_map.2 ⟨p.length - 1, List.mem_range.2 ?_, ?_⟩
  · exact Nat.sub_lt (List.length_pos.2 h) Nat.one_pos
  · rw [Nat.sub_add_cancel (Nat.one_le_iff_ne_zero.2 (by simpa using h))]
    exact List.take_length p

theorem existsP_createDirAll_self (st : FsState) {p : FsPath} (h : p ≠ []) :
    FsState.existsP (FsState.createDirAll st p) p = true := by
  unfold FsState.existsP FsState.createDirAll
  refine Bool.or_eq_true_iff.2 (Or.inl ?_)
  exact List.any_eq_true.2 ⟨p, List.mem_append.2 (Or.inl (mem_pathPrefixes_self h)), by simp⟩

theorem existsP_writeFile_dirs (st : FsState) (q : FsPath) (c : String) {p : FsPath}
    (h : st.dirs.any (fun r => decide (r = p)) = true) :
    FsState.existsP (FsState.writeFile st q c) p = true := by
  unfold FsState.existsP FsState.writeFile
  exact Bool.or_eq_true_iff.2 (Or.inl h)

theorem lookupFile_writeFile (st : FsState) (p : FsPath) (c : String) :
    lookupFile (FsState.writeFile st p c).files p = some c := by
  simp [FsState.writeFile, lookupFile]

/-- The template directory path is never empty: it always ends in the normal
component `template`. -/
theorem templateDirPath_ne_nil (home : FsPath) :
    FsPath.joinStr (FsPath.joinStr home ".new-cli") "template" ≠ [] := by
  have h : FsPath.joinStr (FsPath.joinStr home ".new-cli") "template" =
      FsPath.joinStr home ".new-cli" ++ [Component.normal "template"] := rfl
  rw [h]
  simp

theorem seeded_dirs_any (st : FsState) (home : FsPath) :
    ((FsState.createDirAll st
        (FsPath.joinStr (FsPath.joinStr home ".new-cli") "template")).dirs.any
      (fun r => decide (r = FsPath.joinStr (FsPath.joinStr home ".new-cli") "template"))) =
      true := by
  refine List.any_eq_true.2
    ⟨FsPath.joinStr (FsPath.joinStr home ".new-cli") "template", ?_, by simp⟩
  exact List.mem_append.2 (Or.inl (mem_pathPrefixes_self (templateDirPath_ne_nil home)))

/-- C7: `ensure_template_dir` is idempotent.  If the directory already exists
the call performs no writes and returns the path unchanged; on first run it
creates the directory with all its parents and seeds `index.html` with the
default template; and rerunning after any successful run changes nothing. -/
theorem ensure_template_dir_props :
    (∀ (env : Env) (dc : String) (st : FsState) (home template_dir : FsPath),
       env.home = some home →
       template_dir = FsPath.joinStr (FsPath.joinStr home ".new-cli") "template" →
       (env.pathExists template_dir || FsState.existsP st template_dir) = true →
       ensure_template_dir env dc st = Except.ok (st, template_dir)) ∧
    (∀ (env : Env) (dc : String) (st : FsState) (home template_dir : FsPath),
       env.home = some home →
       template_dir = FsPath.joinStr (FsPath.joinStr home ".new-cli") "template" →
       (env.pathExists template_dir || FsState.existsP st template_dir) = false →
       env.createDirOk = true → env.seedWriteOk = true →
       ∃ st1, ensure_template_dir env dc st = Except.ok (st1, template_dir) ∧
         FsState.existsP st1 template_dir = true ∧
         (∀ q, q ∈ pathPrefixes template_dir → q ∈ st1.dirs) ∧
         lookupFile st1.files (FsPath.joinStr template_dir "index.html") = some dc) ∧
    (∀ (env : Env) (dc : String) (st st1 : FsState) (p : FsPath),
       ensure_template_dir env dc st = Except.ok (st1, p) →
       ensure_template_dir env dc st1 = Except.ok (st1, p)) := by
  refine ⟨?_, ?_, ?_⟩
  · intro env dc st home template_dir hh htd hchk
    subst htd
    simp [ensure_template_dir, hh, hchk]
  · intro env dc st home template_dir hh htd hchk hcd hsw
    subst htd
    refine ⟨FsState.writeFile
        (FsState.createDirAll st (FsPath.joinStr (FsPath.joinStr home ".new-cli") "template"))
        (FsPath.joinStr (FsPath.joinStr (FsPath.joinStr home ".new-cli") "template")
          "index.html") dc, ?_, ?_, ?_, ?_⟩
    · simp [ensure_template_dir, hh, hchk, hcd, hsw]
    · exact existsP_writeFile_dirs _ _ _ (seeded_dirs_any st home)
    · intro q hq
      exact List.mem_append.2 (Or.inl hq)
    · exact lookupFile_writeFile _ _ _
  · intro env dc st st1 p h
    cases hh : env.home with
    | none =>
      rw [ensure_template_dir, hh] at h
      exact absurd h (by simp)
    | some home =>
      rw [ensure_template_dir, hh] at h
      simp only [] at h
      by_cases hchk : (env.pathExists (FsPath.joinStr (FsPath.joinStr home ".new-cli") "template")
          || FsState.existsP st
              (FsPath.joinStr (FsPath.joinStr home ".new-cli") "template")) = true
      · rw [if_pos hchk] at h
        rw [Except.ok.injEq, Prod.mk.injEq] at h
        obtain ⟨hst, hp⟩ := h
        subst hp
        subst hst
        rw [ensure_template_dir, hh]
        simp only []
        rw [if_pos hchk]
      · rw [if_neg hchk] at h
        by_cases hcd : env.createDirOk = false
        · rw [if_pos hcd] at h; exact absurd h (by simp)
        · rw [if_neg hcd] at h
          by_cases hsw : env.seedWriteOk = false
          · rw [if_pos hsw] at h; exact absurd h (by simp)
          · rw [if_neg hsw] at h
            rw [Except.ok.injEq, Prod.mk.injEq] at h
            obtain ⟨hst, hp⟩ := h
            subst hp
            subst hst
            have hex : FsState.existsP
                (FsState.writeFile
                  (FsState.createDirAll st
                    (FsPath.joinStr (FsPath.joinStr home ".new-cli") "template"))
                  (FsPath.joinStr (FsPath.joinStr (FsPath.joinStr home ".new-cli") "template")
                    "index.html") dc)
                (FsPath.joinStr (FsPath.joinStr home ".new-cli") "template") = true :=
              existsP_writeFile_dirs _ _ _ (seeded_dirs_any st home)
            rw [ensure_template_dir, hh]
            simp only []
            simp [hex]

/-- Witness for C7: the no-op branch on a ledger already holding the
directory, the first run from the empty ledger, and idempotence of that first
run. -/
theorem ensure_template_dir_props_witness :
    ((envNone.pathExists wTd || FsState.existsP ⟨[wTd], []⟩ wTd) = true ∧
     ensure_template_dir envNone "D" ⟨[wTd], []⟩ = Except.ok (⟨[wTd], []⟩, wTd)) ∧
    ((envNone.pathExists wTd || FsState.existsP ⟨[], []⟩ wTd) = false ∧
     (∃ st1, ensure_template_dir envNone "D" ⟨[], []⟩ = Except.ok (st1, wTd) ∧
        FsState.existsP st1 wTd = true ∧
        (∀ q, q ∈ pathPrefixes wTd → q ∈ st1.dirs) ∧
        lookupFile st1.files (FsPath.joinStr wTd "index.html") = some "D")) ∧
    (ensure_template_dir envNone "D" ⟨[], []⟩ = Except.ok (wStSeed, wTd) ∧
     ensure_template_dir envNone "D" wStSeed = Except.ok (wStSeed, wTd)) :=
  ⟨⟨by decide, ensure_template_dir_props.1 envNone "D" ⟨[wTd], []⟩ wHome wTd rfl (by decide)
      (by decide)⟩,
   ⟨by decide, ensure_template_dir_props.2.1 envNone "D" ⟨[], []⟩ wHome wTd rfl (by decide)
      (by decide) rfl rfl⟩,
   ⟨rfl, ensure_template_dir_props.2.2 envNone "D" ⟨[], []⟩ wStSeed wTd rfl⟩⟩

/-! ## Lemmas about the main pipeline -/

/-- When validation, the template store, and content resolution all succeed,
`main` continues with the target-writing tail. -/
theorem main_model_reaches_rest (env : Env) (dc : String) (os : OS) (st0 : FsState)
    (filename extension content : String) (st1 : FsState) (template_dir : FsPath)
    (hv : validate_cli_inputs filename extension = Except.ok ())
    (he : ensure_template_dir env dc st0 = Except.ok (st1, template_dir))
    (hc : resolve_content env template_dir filename extension = some content) :
    ∃ msgs0, main_model env dc os st0 filename extension =
      scaffold_rest env os st1 filename extension content msgs0 := by
  cases hf : find_template_file env template_dir filename extension with
  | some p =>
    have hc2 : env.readToString p = some content := by
      have h3 := hc
      unfold resolve_content at h3
      rw [hf] at h3
      simpa using h3
    exact ⟨[], by simp [main_model, hv, he, hf, hc2]⟩
  | none =>
    have hc2 : content = "" := by
      have h3 := hc
      unfold resolve_content at h3
      rw [hf] at h3
      simpa [eq_comm] using h3
    subst hc2
    exact ⟨[Msg.noTemplateFound filename extension], by simp [main_model, hv, he, hf]⟩

/-- The target-writing tail: destination, parent check, write. -/
theorem scaffold_rest_spec (env : Env) (os : OS) (st1 : FsState)
    (filename extension content : String) (msgs0 : List Msg) (cd ccd : FsPath)
    (hcd : env.currentDir = some cd)
    (hccd : env.canonicalize cd = some ccd) :
    (FsPath.parent (FsPath.joinStr ccd (filename ++ "." ++ extension)) ≠ some ccd →
       scaffold_rest env os st1 filename extension content msgs0 =
         ⟨ExitStatus.code 1, none, st1,
           msgs0 ++ [Msg.targetNotInCwd
             (FsPath.joinStr ccd (filename ++ "." ++ extension))]⟩) ∧
    (FsPath.parent (FsPath.joinStr ccd (filename ++ "." ++ extension)) = some ccd →
     env.targetWriteOk = true →
       (scaffold_rest env os st1 filename extension content msgs0).targetWrite =
         some (FsPath.joinStr ccd (filename ++ "." ++ extension), content) ∧
       (scaffold_rest env os st1 filename extension content msgs0).st =
         FsState.writeFile st1 (FsPath.joinStr ccd (filename ++ "." ++ extension)) content) := by
  constructor
  · intro hne
    unfold scaffold_rest
    rw [hcd]
    simp only [hccd]
    rw [if_pos hne]
  · intro hpar htw
    unfold scaffold_rest
    rw [hcd]
    simp only [hccd]
    rw [if_neg (by simp [hpar])]
    rw [if_neg (by simp [htw])]
    cases hsp : env.spawnOk <;> simp

/-- Inversion for the tail: a recorded target write means the run ended with
exit code `0`, and a spawn failure is reported. -/
theorem scaffold_rest_write_inv (env : Env) (os : OS) (st1 : FsState)
    (filename extension content : String) (msgs0 : List Msg) (w : FsPath × String)
    (hw : (scaffold_rest env os st1 filename extension content msgs0).targetWrite = some w)
    (hs : env.spawnOk = false) :
    (scaffold_rest env os st1 filename extension content msgs0).status = ExitStatus.code 0 ∧
    Msg.openFailed ∈ (scaffold_rest env os st1 filename extension content msgs0).msgs := by
  cases hcd : env.currentDir with
  | none => rw [scaffold_rest, hcd] at hw; simp at hw
  | some cd =>
    cases hccd : env.canonicalize cd with
    | none =>
      rw [scaffold_rest, hcd] at hw
      simp [hccd] at hw
    | some ccd =>
      by_cases hpar : FsPath.parent (FsPath.joinStr ccd (filename ++ "." ++ extension)) ≠
          some ccd
      · rw [scaffold_rest, hcd] at hw
        simp [hccd, hpar] at hw
      · by_cases htw : env.targetWriteOk = false
        · rw [scaffold_rest, hcd] at hw
          simp [hccd, hpar, htw] at hw
        · rw [scaffold_rest, hcd]
          simp [hccd, hpar, htw, hs]

/-- C3: after validation, store setup and content resolution succeed, the
destination is the canonical current directory joined with
`<filename>.<extension>`; if its direct parent is not that canonical
directory the run reports the containment error, exits with code `1`, and
performs no target write; otherwise the resolved content (empty when no
template matched, by `resolve_content`) is written to the destination, and a
write always overwrites whatever was previously stored at that path. -/
theorem main_model_target_write (env : Env) (dc : String) (os : OS) (st0 : FsState)
    (filename extension content : String) (st1 : FsState) (template_dir cd ccd : FsPath)
    (hv : validate_cli_inputs filename extension = Except.ok ())
    (he : ensure_template_dir env dc st0 = Except.ok (st1, template_dir))
    (hc : resolve_content env template_dir filename extension = some content)
    (hcd : env.currentDir = some cd)
    (hccd : env.canonicalize cd = some ccd) :
    (FsPath.parent (FsPath.joinStr ccd (filename ++ "." ++ extension)) ≠ some ccd →
       (main_model env dc os st0 filename extension).status = ExitStatus.code 1 ∧
       (main_model env dc os st0 filename extension).targetWrite = none ∧
       (main_model env dc os st0 filename extension).st = st1 ∧
       Msg.targetNotInCwd (FsPath.joinStr ccd (filename ++ "." ++ extension)) ∈
         (main_model env dc os st0 filename extension).msgs) ∧
    (FsPath.parent (FsPath.joinStr ccd (filename ++ "." ++ extension)) = some ccd →
     env.targetWriteOk = true →
       (main_model env dc os st0 filename extension).targetWrite =
         some (FsPath.joinStr ccd (filename ++ "." ++ extension), content) ∧
       (main_model env dc os st0 filename extension).st =
         FsState.writeFile st1 (FsPath.joinStr ccd (filename ++ "." ++ extension)) content ∧
       lookupFile (main_model env dc os st0 filename extension).st.files
         (FsPath.joinStr ccd (filename ++ "." ++ extension)) = some content) ∧
    (∀ (st : FsState) (p : FsPath) (c : String),
       lookupFile (FsState.writeFile st p c).files p = some c) := by
  obtain ⟨msgs0, hm⟩ := main_model_reaches_rest env dc os st0 filename extension content st1
    template_dir hv he hc
  have hsp := scaffold_rest_spec env os st1 filename extension content msgs0 cd ccd hcd hccd
  refine ⟨?_, ?_, fun st p c => lookupFile_writeFile st p c⟩
  · intro hne
    rw [hm, hsp.1 hne]
    simp
  · intro hpar htw
    obtain ⟨hw, hst⟩ := hsp.2 hpar htw
    rw [hm]
    refine ⟨hw, hst, ?_⟩
    rw [hst]
    exact lookupFile_writeFile _ _ _

/-- Witness for C3 over the empty file system: the destination parent check
passes and the empty content is written to `wCwd/index.html`. -/
theorem main_model_target_write_witness :
    validate_cli_inputs "index" "html" = Except.ok () ∧
    ensure_template_dir envNone "D" ⟨[], []⟩ = Except.ok (wStSeed, wTd) ∧
    resolve_content envNone wTd "index" "html" = some "" ∧
    envNone.currentDir = some wCwd ∧
    envNone.canonicalize wCwd = some wCwd ∧
    FsPath.parent (FsPath.joinStr wCwd ("index" ++ "." ++ "html")) = some wCwd ∧
    (main_model envNone "D" OS.linux ⟨[], []⟩ "index" "html").targetWrite =
      some (FsPath.joinStr wCwd ("index" ++ "." ++ "html"), "") ∧
    lookupFile (main_model envNone "D" OS.linux ⟨[], []⟩ "index" "html").st.files
      (FsPath.joinStr wCwd ("index" ++ "." ++ "html")) = some "" :=
  ⟨rfl, rfl, rfl, rfl, rfl, by decide,
    ((main_model_target_write envNone "D" OS.linux ⟨[], []⟩ "index" "html" "" wStSeed wTd
        wCwd wCwd rfl rfl rfl rfl rfl).2.1 (by decide) rfl).1,
    ((main_model_target_write envNone "D" OS.linux ⟨[], []⟩ "index" "html" "" wStSeed wTd
        wCwd wCwd rfl rfl rfl rfl rfl).2.1 (by decide) rfl).2.2⟩

/-- C8: in any run that recorded a successful target write, a spawn failure
of the opener is reported but the run still terminates with exit code `0`. -/
theorem main_model_spawn_fail_exit0 (env : Env) (dc : String) (os : OS) (st0 : FsState)
    (filename extension : String) (w : FsPath × String)
    (hw : (main_model env dc os st0 filename extension).targetWrite = some w)
    (hs : env.spawnOk = false) :
    (main_model env dc os st0 filename extension).status = ExitStatus.code 0 ∧
    Msg.openFailed ∈ (main_model env dc os st0 filename extension).msgs := by
  cases hval : validate_cli_inputs filename extension with
  | error m =>
    rw [main_model, hval] at hw
    simp at hw
  | ok u =>
    cases hen : ensure_template_dir env dc st0 with
    | error ms =>
      obtain ⟨m, stx⟩ := ms
      rw [main_model, hval, hen] at hw
      simp at hw
    | ok pr =>
      obtain ⟨st1, template_dir⟩ := pr
      cases hf : find_template_file env template_dir filename extension with
      | some p =>
        cases hr : env.readToString p with
        | none =>
          simp only [main_model, hval, hen, hf, hr] at hw
          simp at hw
        | some content =>
          simp only [main_model, hval, hen, hf, hr] at hw ⊢
          exact scaffold_rest_write_inv env os st1 filename extension content [] w hw hs
      | none =>
        simp only [main_model, hval, hen, hf] at hw ⊢
        exact scaffold_rest_write_inv env os st1 filename extension ""
          [Msg.noTemplateFound filename extension] w hw hs

/-- Witness for C8: everything succeeds except the opener spawn; the file was
written and the exit code is still `0`, with the failure reported. -/
theorem main_model_spawn_fail_exit0_witness :
    (main_model envSpawnFail "D" OS.linux ⟨[], []⟩ "index" "html").targetWrite =
      some (FsPath.joinStr wCwd ("index" ++ "." ++ "html"), "<html>") ∧
    envSpawnFail.spawnOk = false ∧
    (main_model envSpawnFail "D" OS.linux ⟨[], []⟩ "index" "html").status =
      ExitStatus.code 0 ∧
    Msg.openFailed ∈ (main_model envSpawnFail "D" OS.linux ⟨[], []⟩ "index" "html").msgs :=
  ⟨rfl, rfl,
    (main_model_spawn_fail_exit0 envSpawnFail "D" OS.linux ⟨[], []⟩ "index" "html"
      (FsPath.joinStr wCwd ("index" ++ "." ++ "html"), "<html>") rfl rfl).1,
    (main_model_spawn_fail_exit0 envSpawnFail "D" OS.linux ⟨[], []⟩ "index" "html"
      (FsPath.joinStr wCwd ("index" ++ "." ++ "html"), "<html>") rfl rfl).2⟩
